import Mathlib

/-!
Verification of the natural-language specification of
`amazon-sagemaker-time-series-prediction-using-gluonts` against its code.

The repository consists of two Jupyter notebooks.  The first
(`src/unnamed/part_000`, the GluonTS modeling notebook) defines two helper
functions, `plot_forecast` and `evaluat_models_from_dict`, builds a training
and a test `ListDataset` from a CSV fetched over HTTPS, and runs a linear
sequence of train/evaluate/plot cells.  The second
(`src/notebooks/part4/twitter_volume_sagemaker.ipynb`) defines `copy_to_s3`
and drives SageMaker training, tuning and deployment.

Below we give a shallow embedding of the repository's own logic.  External
library calls (GluonTS's `make_evaluation_predictions` and `Evaluator`,
pandas, boto3) are modelled as explicit oracle parameters or as small
faithful models of the documented library behaviour; fallible library calls
return `Except String`, the error being the raised Python exception.
-/

/-! ## pandas DataFrame model (only what the notebook code touches)

A `DataFrame` holds row labels (`index`) and an ordered list of named
columns, each column a list of cell values in row order.  This mirrors the
pandas objects built by `pd.DataFrame()`, `pd.DataFrame.from_dict(d,
orient='index', columns=[name])`, `df.insert` and `df.empty` exactly as the
notebook uses them. -/

structure DataFrame (α : Type) where
  index : List String
  cols : List (String × List α)
  deriving Repr, DecidableEq

namespace DataFrame

/-- `pd.DataFrame()`: no rows, no columns. -/
def emptyDF (α : Type) : DataFrame α := ⟨[], []⟩

/-- `df.empty`: true iff either axis has length 0. -/
def isEmpty (df : DataFrame α) : Bool :=
  df.index.isEmpty || df.cols.isEmpty

/-- `pd.DataFrame.from_dict(d, orient='index', columns=[name])`:
row labels are the dict keys in insertion order, the single column `name`
holds the dict values in the same order. -/
def fromDictCol (d : List (String × α)) (name : String) : DataFrame α :=
  ⟨d.map Prod.fst, [(name, d.map Prod.snd)]⟩

/-- `df.insert(loc=len(df.columns), column=name, value=vals)`: appends a
column at the right edge.  pandas raises `ValueError` when the column name
already exists (`allow_duplicates` defaults to `False`) or when the value
array's length differs from the number of rows; the values are assigned
positionally, the row labels are untouched. -/
def insertCol (df : DataFrame α) (name : String) (vals : List α) :
    Except String (DataFrame α) :=
  if (df.cols.map Prod.fst).contains name then
    Except.error "ValueError: cannot insert column, already exists"
  else if vals.length ≠ df.index.length then
    Except.error "ValueError: length of values does not match length of index"
  else
    Except.ok ⟨df.index, df.cols ++ [(name, vals)]⟩

end DataFrame

/-! ## `evaluat_models_from_dict` (src/unnamed/part_000, lines 465-491)

```python
def evaluat_models_from_dict(data, predictors, predictor_names, num_samples=100):
    df = pd.DataFrame()
    for (predictor, predictor_name) in zip(predictors, predictor_names):
        forecast_it, ts_it = make_evaluation_predictions(data, predictor=predictor,
                                                         num_samples=num_samples)
        deepar_agg_metrics, item_metrics = Evaluator(quantiles=[0.1, 0.5, 0.9])(
                                                     ts_it, forecast_it,
                                                     num_series=len(data))
        evaluation = pd.DataFrame.from_dict(deepar_agg_metrics, orient='index',
                                            columns=[predictor_name])
        if df.empty:
            df = evaluation.copy()
        else:
            df.insert(loc=len(df.columns), column=predictor_name, value=evaluation.values)
    return df
```

The pipeline `make_evaluation_predictions` followed by
`Evaluator(quantiles=[0.1, 0.5, 0.9])(ts_it, forecast_it, num_series=len(data))`
is entirely in the external library; we model its result — the aggregate
metrics dict, an insertion-ordered map from metric name to value — as an
oracle `aggMetrics data predictor num_samples`, fallible because any of the
library calls may raise. -/

section EvaluatModels

variable {D P α : Type}

/-- The loop body of `evaluat_models_from_dict`, one step per
`(predictor, predictor_name)` pair of the `zip`; a raised exception aborts
the whole loop. -/
def evalLoop (aggMetrics : D → P → Nat → Except String (List (String × α)))
    (data : D) (num_samples : Nat) :
    List (P × String) → DataFrame α → Except String (DataFrame α)
  | [], df => Except.ok df
  | (predictor, predictor_name) :: rest, df =>
    match aggMetrics data predictor num_samples with
    | Except.error e => Except.error e
    | Except.ok deepar_agg_metrics =>
      let evaluation := DataFrame.fromDictCol deepar_agg_metrics predictor_name
      if df.isEmpty then
        evalLoop aggMetrics data num_samples rest evaluation
      else
        match df.insertCol predictor_name (deepar_agg_metrics.map Prod.snd) with
        | Except.error e => Except.error e
        | Except.ok df2 => evalLoop aggMetrics data num_samples rest df2

/-- `evaluat_models_from_dict`: iterates over `zip(predictors,
predictor_names)`, starting from `pd.DataFrame()`. -/
def evaluat_models_from_dict
    (aggMetrics : D → P → Nat → Except String (List (String × α)))
    (data : D) (predictors : List P) (predictor_names : List String)
    (num_samples : Nat := 100) : Except String (DataFrame α) :=
  evalLoop aggMetrics data num_samples (predictors.zip predictor_names)
    (DataFrame.emptyDF α)

end EvaluatModels

example :
    evaluat_models_from_dict
      (fun _ _ _ => Except.ok [("MSE", (3 : Int)), ("RMSE", 5)]) ()
      [0, 1] ["a", "b"] 100 =
    Except.ok ⟨["MSE", "RMSE"], [("a", [3, 5]), ("b", [3, 5])]⟩ := rfl

example :
    evaluat_models_from_dict
      (fun _ _ _ => Except.ok [("MSE", (3 : Int))]) ()
      [0, 1] ["a"] 100 =
    Except.ok ⟨["MSE"], [("a", [3])]⟩ := rfl

/-! ## `plot_forecast` (src/unnamed/part_000, lines 141-154)

```python
def plot_forecast(predictor, test_data):
    prediction_intervals = (50.0, 90.0)
    legend = ["observations", "median prediction"] + \
        [f"{k}% prediction interval" for k in prediction_intervals][::-1]
    forecast_it, ts_it = make_evaluation_predictions(
        dataset=test_data, predictor=predictor, num_samples=100)
    fig, ax = plt.subplots(1, 1, figsize=(10, 7))
    list(ts_it)[0][-336:].plot(ax=ax)
    list(forecast_it)[0].plot(prediction_intervals, color='g')
    plt.grid(which="both")
    plt.legend(legend, loc="upper left")
    plt.show()
```

`make_evaluation_predictions` is a GluonTS library call; we keep it as an
oracle parameter `mep predictor dataset num_samples` returning the pair of
iterators (as lists: the forecasts and the observed series), fallible since
the library may raise.  What the function shows on screen is modelled as a
`PlotSpec`: the observed values drawn (`list(ts_it)[0][-336:]`), the
forecast object drawn, the prediction intervals passed to its `.plot`
(GluonTS draws the forecast median plus one shaded band per requested
interval), and the legend strings.  `E` is the type of dataset entries, `F`
the opaque forecast type, `V` the type of observed values. -/

/-- Python's `xs[-n:]`: the last `n` elements (all of them when the list is
shorter than `n`). -/
def pyTail (n : Nat) (xs : List α) : List α := xs.drop (xs.length - n)

/-- What one call of `plot_forecast` renders. -/
structure PlotSpec (F V : Type) where
  observed : List V
  forecast : F
  intervals : ℚ × ℚ
  legend : List String
  deriving Repr, DecidableEq

section PlotForecast

variable {P E F V : Type}

/-- `plot_forecast predictor test_data`, parametrised by the library oracle
`mep` for `make_evaluation_predictions`.  `list(ts_it)[0]` is evaluated
before `list(forecast_it)[0]`, so an empty series list raises `IndexError`
first. -/
def plot_forecast (mep : P → List E → Nat → Except String (List F × List (List V)))
    (predictor : P) (test_data : List E) : Except String (PlotSpec F V) :=
  let prediction_intervals : ℚ × ℚ := (50, 90)
  let legend := ["observations", "median prediction"] ++
    ["50.0% prediction interval", "90.0% prediction interval"].reverse
  match mep predictor test_data 100 with
  | Except.error e => Except.error e
  | Except.ok (forecast_it, ts_it) =>
    match ts_it with
    | [] => Except.error "IndexError: list index out of range"
    | ts0 :: _ =>
      match forecast_it with
      | [] => Except.error "IndexError: list index out of range"
      | f0 :: _ =>
        Except.ok ⟨pyTail 336 ts0, f0, prediction_intervals, legend⟩

/-- Modelled behaviour of GluonTS `make_evaluation_predictions` when no
exception is raised: for each entry of the dataset, in order, one forecast
(drawn from `num_samples` sample paths of the predictor on that entry) and
one observed series (the entry converted `to_pandas`). -/
def make_evaluation_predictions_model (forecastOf : P → E → Nat → F)
    (toSeries : E → List V) (predictor : P) (dataset : List E)
    (num_samples : Nat) : Except String (List F × List (List V)) :=
  Except.ok
    (dataset.map (fun e => forecastOf predictor e num_samples),
     dataset.map toSeries)

end PlotForecast

example :
    plot_forecast (make_evaluation_predictions_model
        (fun (p : Nat) (e : Nat) (n : Nat) => p + e + n) (fun e => [e, e]))
      7 [1, 2] =
    Except.ok ⟨[1, 1], 108, (50, 90),
      ["observations", "median prediction",
       "90.0% prediction interval", "50.0% prediction interval"]⟩ := rfl

/-! ## `copy_to_s3` (src/notebooks/part4/twitter_volume_sagemaker.ipynb)

```python
s3 = boto3.resource('s3')
def copy_to_s3(local_file, s3_path, override=False):
    assert s3_path.startswith('s3://')
    split = s3_path.split('/')
    bucket = split[2]
    path = '/'.join(split[3:])
    buk = s3.Bucket(bucket)
    if len(list(buk.objects.filter(Prefix=path))) > 0:
        if not override:
            print('File ... already exists.\nSet override to upload anyway.\n')
            return
        else:
            print('Overwriting existing file')
    with open(local_file, 'rb') as data:
        print('Uploading file to {}'.format(s3_path))
        buk.put_object(Key=path, Body=data)
```

The S3 store is modelled as a list of objects `(bucket, key, body)`.
`buk.objects.filter(Prefix=path)` lists the bucket's objects whose key
starts with `path`; `buk.put_object(Key=path, Body=data)` stores the body
under that exact key, replacing any object with the same key.  The local
file's bytes are passed in as `local_file_content`; a failed `assert`
raises `AssertionError`.

Python's string primitives `s.split(sep)`, `s.startswith(pre)` and
`sep.join(parts)` are modelled on the underlying character lists
(`str.split` with an explicit separator keeps empty segments, exactly as
`List.splitOn` does). -/

/-- Python `s.split(sep)` for a one-character separator. -/
def pySplit (s : String) (sep : Char) : List String :=
  (s.data.splitOn sep).map List.asString

/-- Python `s.startswith(pre)`. -/
def pyStartswith (s pre : String) : Bool :=
  pre.data.isPrefixOf s.data

/-- Python `sep.join(parts)`. -/
def pyJoin (sep : String) (parts : List String) : String :=
  (List.intercalate sep.data (parts.map String.data)).asString

example : pySplit "s3://bucket/a/b.csv" '/' = ["s3:", "", "bucket", "a", "b.csv"] := by decide

example : pyJoin "/" ["a", "b.csv"] = "a/b.csv" := by decide

/-- An S3 object: bucket name, key, body. -/
abbrev S3Object := String × String × String

abbrev S3State := List S3Object

/-- `s3.Bucket(bucket).objects.filter(Prefix=pfx)`: the objects of `bucket`
whose key starts with `pfx`, as (key, body) pairs. -/
def objectsUnder (st : S3State) (bucket pfx : String) : List (String × String) :=
  (st.filter (fun o => o.1 == bucket)).map (fun o => o.2) |>.filter
    (fun kv => pyStartswith kv.1 pfx)

/-- `buk.put_object(Key=key, Body=body)`: stores the object, replacing any
object of the same bucket and key. -/
def put_object (st : S3State) (bucket key body : String) : S3State :=
  st.filter (fun o => !(o.1 == bucket && o.2.1 == key)) ++ [(bucket, key, body)]

/-- `copy_to_s3 local_file s3_path override` acting on the S3 store `st`;
returns the new store, or the raised exception. -/
def copy_to_s3 (st : S3State) (local_file_content : String) (s3_path : String)
    (override : Bool := false) : Except String S3State :=
  if !(pyStartswith s3_path "s3://") then
    Except.error "AssertionError"
  else
    let split := pySplit s3_path '/'
    -- split[2] and split[3:]; a path passing the assertion always splits
    -- into at least three parts ("s3:", "", bucket...), so the default of
    -- getD is unreachable
    let bucket := split.getD 2 ""
    let path := pyJoin "/" (split.drop 3)
    if (objectsUnder st bucket path).length > 0 then
      if !override then
        Except.ok st
      else
        Except.ok (put_object st bucket path local_file_content)
    else
      Except.ok (put_object st bucket path local_file_content)

example :
    copy_to_s3 [("b", "gluonts/train/train.csv", "old")] "data"
      "s3://b/gluonts/train/train.csv" false =
    Except.ok [("b", "gluonts/train/train.csv", "old")] := rfl

example :
    copy_to_s3 [("b", "gluonts/train/train.csv", "old")] "data"
      "s3://b/gluonts/train/train.csv" true =
    Except.ok [("b", "gluonts/train/train.csv", "data")] := rfl

example :
    copy_to_s3 [] "data" "s3://b/k.csv" false =
    Except.ok [("b", "k.csv", "data")] := rfl

example : copy_to_s3 [] "data" "b/k.csv" false = Except.error "AssertionError" := rfl

/-! ## Training and test datasets (src/unnamed/part_000, lines 184-191)

```python
training_data = ListDataset([{"start": df.index[0],
                              "target": df.value[: "2015-04-05 00:00:00"]}],
                              freq="5min")

test_data = ListDataset([{"start": df.index[0],
                          "target": df.value[:"2015-04-15 00:00:00"]}],
                          freq="5min")
```

The loaded table `df` is represented by its index column (the timestamp
strings of the CSV's first column, chronologically — hence, in the
fixed-width `YYYY-MM-DD HH:MM:SS` format, lexicographically — sorted) and
its `value` column.  pandas label slicing `series[: label]` on a sorted
index keeps every row whose label is `≤` the bound, the bound included.
A GluonTS `ListDataset` is an iterable of records each holding the `start`
timestamp and the `target` sequence; the `freq` argument only tags the
series frequency. -/

/-- Lexicographic (code-point) comparison of character lists: Python's
`≤` on strings. -/
def charListLe : List Char → List Char → Bool
  | [], _ => true
  | _ :: _, [] => false
  | a :: as, b :: bs =>
    if a.toNat < b.toNat then true
    else if b.toNat < a.toNat then false
    else charListLe as bs

/-- Python `s <= t` on strings. -/
def pyStrLe (s t : String) : Bool := charListLe s.data t.data

example : pyStrLe "2015-04-05 00:00:00" "2015-04-15 00:00:00" = true := by decide
example : pyStrLe "2015-04-16" "2015-04-15 00:00:00" = false := by decide

/-- A `ListDataset` record: `{"start": ..., "target": ...}`. -/
structure DataEntry (V : Type) where
  start : String
  target : List V
  deriving Repr, DecidableEq

/-- `gluonts.dataset.common.ListDataset(records, freq)`: an iterable of the
given records (the frequency string is carried by each series inside the
library and plays no role in the notebook's own logic). -/
def ListDataset (records : List (DataEntry V)) (_freq : String) : List (DataEntry V) :=
  records

/-- pandas `series[: label]` on a sorted string index: the values whose
index label is at most `label`. -/
def labelSliceUpTo (idx : List String) (vals : List V) (label : String) : List V :=
  ((idx.zip vals).takeWhile (fun p => pyStrLe p.1 label)).map Prod.snd

/-- `training_data`: values of the loaded table up to 2015-04-05 00:00:00.
`df.index[0]` on the (non-empty) loaded table is its first index label;
the `headD` default is unreachable for a non-empty table. -/
def training_data (idx : List String) (value : List V) : List (DataEntry V) :=
  ListDataset [⟨idx.headD "", labelSliceUpTo idx value "2015-04-05 00:00:00"⟩] "5min"

/-- `test_data`: values of the loaded table up to 2015-04-15 00:00:00. -/
def test_data (idx : List String) (value : List V) : List (DataEntry V) :=
  ListDataset [⟨idx.headD "", labelSliceUpTo idx value "2015-04-15 00:00:00"⟩] "5min"

example :
    training_data ["2015-02-26 21:42:53", "2015-04-04 23:57:53", "2015-04-10 00:02:53"]
      [(10 : Int), 20, 30] = [⟨"2015-02-26 21:42:53", [10, 20]⟩] := by decide

example :
    test_data ["2015-02-26 21:42:53", "2015-04-04 23:57:53", "2015-04-10 00:02:53"]
      [(10 : Int), 20, 30] = [⟨"2015-02-26 21:42:53", [10, 20, 30]⟩] := by decide

/-! ## The notebooks' cell sequences

A notebook executes its code cells top to bottom, once each, with no
control flow between cells.  We transcribe each notebook as the ordered
list of its (effectful) code cells; temporal claims about the notebooks are
ordering facts about these lists. -/

/-- The code cells of the GluonTS modeling notebook (src/unnamed/part_000),
in source order. -/
inductive Step
  | checkVersions
  | imports
  | setEpochs
  | setUrl
  | fetchCSV
  | plotRawHead
  | definePlotForecast
  | buildDatasets
  | createNaivePredictor
  | evalNaive
  | plotNaive
  | printNaiveMetrics
  | createDeepAREstimator
  | trainDeepAR
  | plotDeepAR
  | serializeDeepAR
  | evalDeepAR
  | printMSEComparison
  | createAndTrainMLP
  | plotMLP
  | runComparison
  | inspectNetworkClass
  | collectParams
  deriving Repr, DecidableEq

/-- src/unnamed/part_000: its code cells in source order (the commented-out
`pip install` cell has no effect and is omitted; the cell that defines
`evaluat_models_from_dict` also calls it, transcribed as `runComparison`). -/
def notebookSteps : List Step :=
  [Step.checkVersions, Step.imports, Step.setEpochs, Step.setUrl, Step.fetchCSV,
   Step.plotRawHead, Step.definePlotForecast, Step.buildDatasets,
   Step.createNaivePredictor, Step.evalNaive, Step.plotNaive,
   Step.printNaiveMetrics, Step.createDeepAREstimator, Step.trainDeepAR,
   Step.plotDeepAR, Step.serializeDeepAR, Step.evalDeepAR,
   Step.printMSEComparison, Step.createAndTrainMLP, Step.plotMLP,
   Step.runComparison, Step.inspectNetworkClass, Step.collectParams]

/-- The code cells of the SageMaker notebook
(src/notebooks/part4/twitter_volume_sagemaker.ipynb), in source order. -/
inductive SMStep
  | imports
  | setupSession
  | fetchCSVAndSplit
  | defineCopyAndUpload
  | checkS3File
  | setupRole
  | createMXNetEstimator
  | fitEstimator
  | createTuner
  | fitTuner
  | getTuningJobName
  | describeTuningJob
  | analyticsDataframe
  | bokehPlots
  | deployEndpoint
  | predictEndpoint
  | showResult
  | deleteEndpoint
  deriving Repr, DecidableEq

/-- src/notebooks/part4/twitter_volume_sagemaker.ipynb: its code cells in
source order (`fetchCSVAndSplit` is the single cell that sets the URL,
calls `pd.read_csv` on it, and writes the train/test CSV splits). -/
def sagemakerSteps : List SMStep :=
  [SMStep.imports, SMStep.setupSession, SMStep.fetchCSVAndSplit,
   SMStep.defineCopyAndUpload, SMStep.checkS3File, SMStep.setupRole,
   SMStep.createMXNetEstimator, SMStep.fitEstimator, SMStep.createTuner,
   SMStep.fitTuner, SMStep.getTuningJobName, SMStep.describeTuningJob,
   SMStep.analyticsDataframe, SMStep.bokehPlots, SMStep.deployEndpoint,
   SMStep.predictEndpoint, SMStep.showResult, SMStep.deleteEndpoint]

/-! ## The data fetch (src/unnamed/part_000 lines 95-105, and the
SageMaker notebook's loading cell)

```python
url = "https://raw.githubusercontent.com/numenta/NAB/master/data/realTweets/Twitter_volume_AMZN.csv"
df = pd.read_csv(filepath_or_buffer=url, header=0, index_col=0)
```
-/

/-- The arguments of a `pd.read_csv` call as the notebooks make it. -/
structure ReadCsvArgs where
  filepath_or_buffer : String
  header : Nat
  index_col : Nat
  deriving Repr, DecidableEq

/-- The URL set by src/unnamed/part_000. -/
def url_modeling : String :=
  "https://raw.githubusercontent.com/numenta/NAB/master/data/realTweets/Twitter_volume_AMZN.csv"

/-- The URL set by src/notebooks/part4/twitter_volume_sagemaker.ipynb. -/
def url_sagemaker : String :=
  "https://raw.githubusercontent.com/numenta/NAB/master/data/realTweets/Twitter_volume_AMZN.csv"

/-- The `pd.read_csv` call of src/unnamed/part_000. -/
def read_csv_modeling : ReadCsvArgs := ⟨url_modeling, 0, 0⟩

/-- The `pd.read_csv` call of the SageMaker notebook. -/
def read_csv_sagemaker : ReadCsvArgs := ⟨url_sagemaker, 0, 0⟩

/-- Python `s.endswith(suf)`. -/
def pyEndswith (s suf : String) : Bool :=
  suf.data.reverse.isPrefixOf s.data.reverse

/-! ## `is_num` (src/notebooks/part4/twitter_volume_sagemaker.ipynb, bokeh
cell)

```python
def is_num(x):
    try:
        float(x)
        return 1
    except:
        return 0
```

The only exception handler in the repository: the bare `except` catches any
failure raised by the library call `float(x)` and converts it into the
non-exceptional result `0`.  `float` is modelled as the fallible oracle
`toFloat`; `R` is its result type, discarded by the function. -/
def is_num {X R : Type} (toFloat : X → Except String R) (x : X) : Nat :=
  match toFloat x with
  | Except.ok _ => 1
  | Except.error _ => 0

/-- `copy_to_s3` once more, with its library collaborators explicit and
fallible, in the order the source calls them:
`listObjects st bucket pfx` models
`list(s3.Bucket(bucket).objects.filter(Prefix=pfx))`, `openFile` models
`open(local_file, 'rb')` yielding the file's bytes, and `putObject` models
`buk.put_object(Key=path, Body=data)` yielding the new store.  Its control
flow is identical to `copy_to_s3` above, which is the instance where no
collaborator raises (`copy_to_s3F_agrees` below). -/
def copy_to_s3F
    (listObjects : S3State → String → String →
      Except String (List (String × String)))
    (openFile : String → Except String String)
    (putObject : S3State → String → String → String → Except String S3State)
    (st : S3State) (local_file s3_path : String) (override : Bool) :
    Except String S3State :=
  if !(pyStartswith s3_path "s3://") then
    Except.error "AssertionError"
  else
    let split := pySplit s3_path '/'
    let bucket := split.getD 2 ""
    let path := pyJoin "/" (split.drop 3)
    match listObjects st bucket path with
    | Except.error e => Except.error e
    | Except.ok objs =>
      if objs.length > 0 then
        if !override then
          Except.ok st
        else
          -- `override` set: the source prints and falls through to the
          -- upload block
          match openFile local_file with
          | Except.error e => Except.error e
          | Except.ok data => putObject st bucket path data
      else
        match openFile local_file with
        | Except.error e => Except.error e
        | Except.ok data => putObject st bucket path data

/-! ## Lemmas about `evaluat_models_from_dict` -/

section EvaluatModelsLemmas

variable {D P α : Type}

/-- After the first iteration has replaced the empty frame, each further
iteration of the loop of `evaluat_models_from_dict` appends one column: the
pair's name over the raw metric values, leaving the row labels alone. -/
lemma evalLoop_ok (metricsOf : D → P → Nat → List (String × α)) (data : D)
    (k n : Nat) :
    ∀ (pairs : List (P × String)) (df : DataFrame α),
      df.index.length = n → 0 < n → df.cols ≠ [] →
      (∀ pr ∈ pairs, (metricsOf data pr.1 k).length = n) →
      (∀ pr ∈ pairs, pr.2 ∉ df.cols.map Prod.fst) →
      (pairs.map Prod.snd).Nodup →
      evalLoop (fun d p s => Except.ok (metricsOf d p s)) data k pairs df =
        Except.ok ⟨df.index,
          df.cols ++
            pairs.map (fun pr => (pr.2, (metricsOf data pr.1 k).map Prod.snd))⟩
  | [], df, _, _, _, _, _, _ => by simp [evalLoop]
  | (p, name) :: rest, df, hidx, hn, hcols, hm, hnotin, hnd => by
    obtain ⟨idx, cols⟩ := df
    cases idx with
    | nil => simp at hidx; omega
    | cons i0 idx' =>
      cases cols with
      | nil => exact absurd rfl hcols
      | cons c0 cols' =>
        have hempty : DataFrame.isEmpty ⟨i0 :: idx', c0 :: cols'⟩ = false := rfl
        have hname : ¬ name ∈ (c0 :: cols').map Prod.fst :=
          hnotin (p, name) (List.mem_cons_self _ _)
        have hvlen : ((metricsOf data p k).map Prod.snd).length =
            (i0 :: idx').length := by
          simpa using (hm (p, name) (List.mem_cons_self _ _)).trans hidx.symm
        have hins : DataFrame.insertCol ⟨i0 :: idx', c0 :: cols'⟩ name
            ((metricsOf data p k).map Prod.snd) =
            Except.ok ⟨i0 :: idx',
              (c0 :: cols') ++ [(name, (metricsOf data p k).map Prod.snd)]⟩ := by
          simp only [DataFrame.insertCol]
          rw [if_neg, if_neg]
          · simp [hvlen]
          · simpa using hname
        rw [List.map_cons] at hnd
        have hnamenotin := (List.nodup_cons.mp hnd).1
        have hndrest := (List.nodup_cons.mp hnd).2
        have hrec := evalLoop_ok metricsOf data k n rest
          ⟨i0 :: idx', (c0 :: cols') ++ [(name, (metricsOf data p k).map Prod.snd)]⟩
          hidx hn (by simp)
          (fun pr hpr => hm pr (List.mem_cons_of_mem _ hpr))
          (by
            intro pr hpr
            have h1 := hnotin pr (List.mem_cons_of_mem _ hpr)
            have h2 : pr.2 ≠ name := by
              intro he
              have hmm := List.mem_map_of_mem Prod.snd hpr
              rw [he] at hmm
              exact hnamenotin hmm
            intro hmem
            rw [List.map_append, List.mem_append] at hmem
            rcases hmem with h | h
            · exact h1 h
            · simp at h
              exact h2 h)
          hndrest
        simp only [evalLoop, hempty, hins]
        rw [hrec]
        simp
  termination_by pairs => pairs.length

end EvaluatModelsLemmas

/-- C1 (counterexample): with two predictors but a single predictor name,
`zip` silently truncates and the returned table has one column, not one
column per input predictor; and with a duplicated predictor name the second
`df.insert` raises instead of returning a table at all. -/
theorem evaluat_models_from_dict_truncates_on_short_names :
    (evaluat_models_from_dict (fun _ _ _ => Except.ok [("MSE", (1 : Int))]) ()
        [0, 1] ["a"] 100).map (fun df => df.cols.length) = Except.ok 1 ∧
      ([0, 1] : List Nat).length = 2 ∧
      evaluat_models_from_dict (fun _ _ _ => Except.ok [("MSE", (1 : Int))]) ()
        [0, 1] ["a", "a"] 100 =
        Except.error "ValueError: cannot insert column, already exists" :=
  ⟨rfl, rfl, rfl⟩

/-- C1 (amended): when the predictor list and the name list have the same
length, the names are pairwise distinct, and every evaluation returns a
metrics mapping of one common positive size, the table returned by
`evaluat_models_from_dict` has exactly one column per input predictor, in
input order, each labelled with the corresponding predictor name. -/
theorem evaluat_models_from_dict_one_column_per_predictor
    {D P α : Type} (metricsOf : D → P → Nat → List (String × α)) (data : D)
    (k n : Nat) (predictors : List P) (predictor_names : List String)
    (hlen : predictors.length = predictor_names.length)
    (hnd : predictor_names.Nodup)
    (hm : ∀ p ∈ predictors, (metricsOf data p k).length = n) (hn : 0 < n) :
    ∃ df, evaluat_models_from_dict (fun d p s => Except.ok (metricsOf d p s))
        data predictors predictor_names k = Except.ok df ∧
      df.cols.map Prod.fst = predictor_names := by
  cases predictors with
  | nil =>
    cases predictor_names with
    | nil => exact ⟨DataFrame.emptyDF α, rfl, rfl⟩
    | cons _ _ => simp at hlen
  | cons p ps =>
    cases predictor_names with
    | nil => simp at hlen
    | cons name ns =>
      have hm0 : (metricsOf data p k).length = n := hm p (List.mem_cons_self _ _)
      have hlen' : ps.length = ns.length := by simpa using hlen
      have hzip_snd : (ps.zip ns).map Prod.snd = ns :=
        List.map_snd_zip ps ns (Nat.le_of_eq hlen'.symm)
      have hnn := (List.nodup_cons.mp hnd).1
      have hnsnd := (List.nodup_cons.mp hnd).2
      have hrec := evalLoop_ok metricsOf data k n (ps.zip ns)
        (DataFrame.fromDictCol (metricsOf data p k) name)
        (by simp [DataFrame.fromDictCol, hm0]) hn
        (by simp [DataFrame.fromDictCol])
        (fun pr hpr => hm pr.1 (List.mem_cons_of_mem _
          (List.of_mem_zip (by simpa using hpr)).1))
        (by
          intro pr hpr
          have h2 : pr.2 ∈ ns := (List.of_mem_zip (a := pr.1) (b := pr.2)
            (by simpa using hpr)).2
          simp [DataFrame.fromDictCol]
          intro he
          rw [he] at h2
          exact hnn h2)
        (by rw [hzip_snd]; exact hnsnd)
      have hstep : evaluat_models_from_dict
          (fun d p s => Except.ok (metricsOf d p s)) data (p :: ps)
          (name :: ns) k =
          evalLoop (fun d p s => Except.ok (metricsOf d p s)) data k
            (ps.zip ns) (DataFrame.fromDictCol (metricsOf data p k) name) := rfl
      rw [hstep, hrec]
      refine ⟨_, rfl, ?_⟩
      simp [DataFrame.fromDictCol, List.map_map]
      simpa using hzip_snd

/-- C1 (witness): the amended theorem applied at a concrete input. -/
theorem evaluat_models_from_dict_one_column_per_predictor_witness :
    ∃ df, evaluat_models_from_dict
        (fun _ _ _ => Except.ok [("MSE", (1 : Int)), ("RMSE", 2)]) ()
        [0, 1] ["a", "b"] 100 = Except.ok df ∧
      df.cols.map Prod.fst = ["a", "b"] :=
  evaluat_models_from_dict_one_column_per_predictor
    (fun _ _ _ => [("MSE", (1 : Int)), ("RMSE", 2)]) () 100 2 [0, 1] ["a", "b"]
    (by decide) (by decide) (by decide) (by decide)

/-- C10: in a successful run of `evaluat_models_from_dict`, the returned
table's row labels are the metric names of the first evaluated predictor,
and every column — the first by `from_dict`, each later one by positional
`insert` of the raw metric-value array — holds its predictor's metric
values in that predictor's own metric order, not matched by metric name. -/
theorem evaluat_models_from_dict_positional
    {D P α : Type} (metricsOf : D → P → Nat → List (String × α)) (data : D)
    (k n : Nat) (p0 : P) (ps : List P) (name0 : String) (ns : List String)
    (hlen : ps.length = ns.length) (hnd : (name0 :: ns).Nodup)
    (hm : ∀ p ∈ p0 :: ps, (metricsOf data p k).length = n) (hn : 0 < n) :
    evaluat_models_from_dict (fun d p s => Except.ok (metricsOf d p s)) data
        (p0 :: ps) (name0 :: ns) k =
      Except.ok ⟨(metricsOf data p0 k).map Prod.fst,
        ((p0 :: ps).zip (name0 :: ns)).map
          (fun pr => (pr.2, (metricsOf data pr.1 k).map Prod.snd))⟩ := by
  have hm0 : (metricsOf data p0 k).length = n := hm p0 (List.mem_cons_self _ _)
  have hzip_snd : (ps.zip ns).map Prod.snd = ns :=
    List.map_snd_zip ps ns (Nat.le_of_eq hlen.symm)
  have hnn := (List.nodup_cons.mp hnd).1
  have hnsnd := (List.nodup_cons.mp hnd).2
  have hrec := evalLoop_ok metricsOf data k n (ps.zip ns)
    (DataFrame.fromDictCol (metricsOf data p0 k) name0)
    (by simp [DataFrame.fromDictCol, hm0]) hn
    (by simp [DataFrame.fromDictCol])
    (fun pr hpr => hm pr.1 (List.mem_cons_of_mem _
      (List.of_mem_zip (by simpa using hpr)).1))
    (by
      intro pr hpr
      have h2 : pr.2 ∈ ns := (List.of_mem_zip (a := pr.1) (b := pr.2)
        (by simpa using hpr)).2
      simp [DataFrame.fromDictCol]
      intro he
      rw [he] at h2
      exact hnn h2)
    (by rw [hzip_snd]; exact hnsnd)
  have hstep : evaluat_models_from_dict
      (fun d p s => Except.ok (metricsOf d p s)) data (p0 :: ps)
      (name0 :: ns) k =
      evalLoop (fun d p s => Except.ok (metricsOf d p s)) data k
        (ps.zip ns) (DataFrame.fromDictCol (metricsOf data p0 k) name0) := rfl
  rw [hstep, hrec]
  simp [DataFrame.fromDictCol, List.zip_cons_cons]

/-- C10 (witness): two predictors whose metric dicts list the same metric
names in opposite orders; the second column keeps its raw order, so its
values sit against the first predictor's row labels positionally. -/
theorem evaluat_models_from_dict_positional_witness :
    evaluat_models_from_dict
        (fun _ p _ => Except.ok (if p = 0 then
          [("MSE", (1 : Int)), ("RMSE", 2)] else [("RMSE", 10), ("MSE", 20)]))
        () [0, 1] ["a", "b"] 100 =
      Except.ok ⟨["MSE", "RMSE"], [("a", [1, 2]), ("b", [10, 20])]⟩ := by
  have h := evaluat_models_from_dict_positional
    (fun _ p _ => if p = 0 then [("MSE", (1 : Int)), ("RMSE", 2)]
      else [("RMSE", 10), ("MSE", 20)]) () 100 2 0 [1] "a" ["b"]
    (by decide) (by decide) (by decide) (by decide)
  simpa using h

section ErrorPropagation

variable {D P E F V α : Type}

/-- If the library call for some pair still ahead of the loop raises, the
loop of `evaluat_models_from_dict` raises, whatever table has been
accumulated so far. -/
lemma evalLoop_error (aggMetrics : D → P → Nat → Except String (List (String × α)))
    (data : D) (k : Nat) :
    ∀ (pairs : List (P × String)) (df : DataFrame α),
      (∃ pr ∈ pairs, ∃ e, aggMetrics data pr.1 k = Except.error e) →
      ∃ e', evalLoop aggMetrics data k pairs df = Except.error e'
  | [], _, h => by simp at h
  | (p, name) :: rest, df, h => by
    cases haggr : aggMetrics data p k with
    | error e => exact ⟨e, by simp [evalLoop, haggr]⟩
    | ok m =>
      obtain ⟨pr, hpr, e, he⟩ := h
      have hmem : pr ∈ rest := by
        rcases List.mem_cons.mp hpr with heq | hmem
        · rw [heq] at he
          rw [haggr] at he
          exact absurd he (by simp)
        · exact hmem
      by_cases hdf : df.isEmpty
      · have := evalLoop_error aggMetrics data k rest
          (DataFrame.fromDictCol m name) ⟨pr, hmem, e, he⟩
        obtain ⟨e', he'⟩ := this
        exact ⟨e', by simp [evalLoop, haggr, hdf, he']⟩
      · cases hins : df.insertCol name (m.map Prod.snd) with
        | error e2 => exact ⟨e2, by simp [evalLoop, haggr, hdf, hins]⟩
        | ok df2 =>
          have := evalLoop_error aggMetrics data k rest df2 ⟨pr, hmem, e, he⟩
          obtain ⟨e', he'⟩ := this
          exact ⟨e', by simp [evalLoop, haggr, hdf, hins, he']⟩
  termination_by pairs => pairs.length

/-- An element of the left list of a `zip` of equal-length lists appears as
the first component of some pair of the `zip`. -/
lemma exists_zip_pair {a : P} :
    ∀ (l1 : List P) (l2 : List String), l1.length = l2.length → a ∈ l1 →
      ∃ b, (a, b) ∈ l1.zip l2
  | [], _, _, ha => absurd ha (List.not_mem_nil a)
  | _ :: _, [], hlen, _ => by simp at hlen
  | x :: xs, y :: ys, hlen, ha => by
    rcases List.mem_cons.mp ha with heq | hmem
    · exact ⟨y, by rw [heq]; simp [List.zip_cons_cons]⟩
    · obtain ⟨b, hb⟩ := exists_zip_pair xs ys (by simpa using hlen) hmem
      exact ⟨b, by simp [List.zip_cons_cons, hb]⟩

/-- C4: `evaluat_models_from_dict` has no partial-failure semantics — if
the evaluation of any predictor of the input list raises, the whole call
raises and no comparison table is returned. -/
theorem evaluat_models_from_dict_no_partial_table
    (aggMetrics : D → P → Nat → Except String (List (String × α)))
    (data : D) (k : Nat) (predictors : List P) (predictor_names : List String)
    (hlen : predictors.length = predictor_names.length)
    (h : ∃ p ∈ predictors, ∃ e, aggMetrics data p k = Except.error e) :
    ∃ e', evaluat_models_from_dict aggMetrics data predictors predictor_names k
      = Except.error e' := by
  obtain ⟨p, hp, e, he⟩ := h
  obtain ⟨b, hb⟩ := exists_zip_pair predictors predictor_names hlen hp
  exact evalLoop_error aggMetrics data k
    (predictors.zip predictor_names) (DataFrame.emptyDF α)
    ⟨(p, b), hb, e, he⟩

/-- C4 (witness): the second of two predictors fails; the whole call
raises. -/
theorem evaluat_models_from_dict_no_partial_table_witness :
    ∃ e', evaluat_models_from_dict
        (fun _ p _ => if p = 0 then Except.ok [("MSE", (1 : Int))]
          else Except.error "GluonTSException")
        () [0, 1] ["a", "b"] 100 = Except.error e' :=
  evaluat_models_from_dict_no_partial_table
    (fun _ p _ => if p = 0 then Except.ok [("MSE", (1 : Int))]
      else Except.error "GluonTSException")
    () 100 [0, 1] ["a", "b"] (by decide)
    ⟨1, by decide, "GluonTSException", rfl⟩

/-- The pure `copy_to_s3` of the C9 development is exactly the
never-raising instance of `copy_to_s3F`: same control flow, collaborators
that always succeed. -/
lemma copy_to_s3F_agrees (st : S3State) (content local_file s3_path : String)
    (override : Bool) :
    copy_to_s3F (fun s b p => Except.ok (objectsUnder s b p))
      (fun _ => Except.ok content)
      (fun s b k d => Except.ok (put_object s b k d))
      st local_file s3_path override =
      copy_to_s3 st content s3_path override := rfl

/-- C3 (counterexample): `is_num`, inside the bokeh cell of the SageMaker
notebook, converts a failure of the library call `float(x)` into the
non-exceptional result `0`: the call raises, yet `is_num` returns
normally. -/
theorem is_num_converts_failure_to_zero :
    (fun _ : String => (Except.error
        "ValueError: could not convert string to float" : Except String Int))
      "abc" = Except.error "ValueError: could not convert string to float" ∧
    is_num (fun _ : String => (Except.error
        "ValueError: could not convert string to float" : Except String Int))
      "abc" = 0 := ⟨rfl, rfl⟩

/-- C3 (amended): apart from `is_num` — whose bare `except` converts a
`float(x)` failure into `0` — no function of the repository catches,
suppresses or converts a library or cloud-API failure.  The conjuncts: a
raised exception inside `make_evaluation_predictions` leaves
`plot_forecast` as the very same exception; an exception raised by the
evaluation pipeline at the head of the remaining iteration list leaves the
`evaluat_models_from_dict` loop — hence the whole call, whatever has been
accumulated — as the same exception, in particular a failure on the first
predictor surfaces unchanged from the top-level call; and each of
`copy_to_s3`'s three library calls (`objects.filter`, `open`,
`put_object`), whenever its control flow reaches that call and it raises,
leaves `copy_to_s3F` as the same exception. -/
theorem library_failures_propagate_unchanged :
    (∀ (mep : P → List E → Nat → Except String (List F × List (List V)))
       (predictor : P) (test_data : List E) (e : String),
        mep predictor test_data 100 = Except.error e →
        plot_forecast mep predictor test_data = Except.error e) ∧
    (∀ (aggMetrics : D → P → Nat → Except String (List (String × α)))
       (data : D) (k : Nat) (p : P) (name : String)
       (rest : List (P × String)) (df : DataFrame α) (e : String),
        aggMetrics data p k = Except.error e →
        evalLoop aggMetrics data k ((p, name) :: rest) df = Except.error e) ∧
    (∀ (aggMetrics : D → P → Nat → Except String (List (String × α)))
       (data : D) (k : Nat) (p : P) (ps : List P) (name : String)
       (ns : List String) (e : String),
        aggMetrics data p k = Except.error e →
        evaluat_models_from_dict aggMetrics data (p :: ps) (name :: ns) k =
          Except.error e) ∧
    (∀ (listObjects : S3State → String → String →
         Except String (List (String × String)))
       (openFile : String → Except String String)
       (putObject : S3State → String → String → String →
         Except String S3State)
       (st : S3State) (local_file s3_path : String) (override : Bool)
       (e : String),
        pyStartswith s3_path "s3://" = true →
        listObjects st ((pySplit s3_path '/').getD 2 "")
            (pyJoin "/" ((pySplit s3_path '/').drop 3)) = Except.error e →
        copy_to_s3F listObjects openFile putObject st local_file s3_path
          override = Except.error e) ∧
    (∀ (listObjects : S3State → String → String →
         Except String (List (String × String)))
       (openFile : String → Except String String)
       (putObject : S3State → String → String → String →
         Except String S3State)
       (st : S3State) (local_file s3_path : String) (override : Bool)
       (e : String),
        pyStartswith s3_path "s3://" = true →
        listObjects st ((pySplit s3_path '/').getD 2 "")
            (pyJoin "/" ((pySplit s3_path '/').drop 3)) = Except.ok [] →
        openFile local_file = Except.error e →
        copy_to_s3F listObjects openFile putObject st local_file s3_path
          override = Except.error e) ∧
    (∀ (listObjects : S3State → String → String →
         Except String (List (String × String)))
       (openFile : String → Except String String)
       (putObject : S3State → String → String → String →
         Except String S3State)
       (st : S3State) (local_file s3_path data : String) (override : Bool)
       (e : String),
        pyStartswith s3_path "s3://" = true →
        listObjects st ((pySplit s3_path '/').getD 2 "")
            (pyJoin "/" ((pySplit s3_path '/').drop 3)) = Except.ok [] →
        openFile local_file = Except.ok data →
        putObject st ((pySplit s3_path '/').getD 2 "")
            (pyJoin "/" ((pySplit s3_path '/').drop 3)) data =
          Except.error e →
        copy_to_s3F listObjects openFile putObject st local_file s3_path
          override = Except.error e) := by
  refine ⟨?_, ?_, ?_, ?_, ?_, ?_⟩
  · intro mep predictor test_data e he
    simp [plot_forecast, he]
  · intro aggMetrics data k p name rest df e he
    simp [evalLoop, he]
  · intro aggMetrics data k p ps name ns e he
    simp [evaluat_models_from_dict, List.zip_cons_cons, evalLoop, he]
  · intro listObjects openFile putObject st local_file s3_path override e
      hs hl
    simp only [copy_to_s3F, hs, Bool.not_true, Bool.false_eq_true, if_false]
    rw [hl]
  · intro listObjects openFile putObject st local_file s3_path override e
      hs hl ho
    simp only [copy_to_s3F, hs, Bool.not_true, Bool.false_eq_true, if_false]
    rw [hl]
    simp [ho]
  · intro listObjects openFile putObject st local_file s3_path data override
      e hs hl ho hp
    simp only [copy_to_s3F, hs, Bool.not_true, Bool.false_eq_true, if_false]
    rw [hl]
    simp [ho]
    simpa using hp

/-- C3 (witness): the six conjuncts applied at concrete inputs. -/
theorem library_failures_propagate_unchanged_witness :
    plot_forecast (fun (_ : Nat) (_ : List Nat) (_ : Nat) =>
        (Except.error "ConnectionError" :
          Except String (List Nat × List (List Nat)))) 0 [1] =
      Except.error "ConnectionError" ∧
    evalLoop (fun _ _ _ => (Except.error "EvaluatorError" :
        Except String (List (String × Int)))) () 100 [((0 : Nat), "a")]
        ⟨["MSE"], [("z", [(5 : Int)])]⟩ =
      Except.error "EvaluatorError" ∧
    evaluat_models_from_dict (fun _ _ _ => (Except.error "EvaluatorError" :
        Except String (List (String × Int)))) () [(0 : Nat)] ["a"] 100 =
      Except.error "EvaluatorError" ∧
    copy_to_s3F (fun _ _ _ => Except.error "ClientError")
        (fun _ => Except.ok "bytes") (fun s _ _ _ => Except.ok s)
        [] "train.csv" "s3://b/k.csv" false = Except.error "ClientError" ∧
    copy_to_s3F (fun _ _ _ => Except.ok [])
        (fun _ => Except.error "FileNotFoundError") (fun s _ _ _ => Except.ok s)
        [] "train.csv" "s3://b/k.csv" false =
      Except.error "FileNotFoundError" ∧
    copy_to_s3F (fun _ _ _ => Except.ok []) (fun _ => Except.ok "bytes")
        (fun _ _ _ _ => Except.error "ClientError")
        [] "train.csv" "s3://b/k.csv" false = Except.error "ClientError" :=
  ⟨(library_failures_propagate_unchanged (D := Unit) (P := Nat) (E := Nat)
      (F := Nat) (V := Nat) (α := Int)).1 _ 0 [1] "ConnectionError" rfl,
   (library_failures_propagate_unchanged (D := Unit) (P := Nat) (E := Nat)
      (F := Nat) (V := Nat) (α := Int)).2.1
     _ () 100 0 "a" [] ⟨["MSE"], [("z", [(5 : Int)])]⟩ "EvaluatorError" rfl,
   (library_failures_propagate_unchanged (D := Unit) (P := Nat) (E := Nat)
      (F := Nat) (V := Nat) (α := Int)).2.2.1
     _ () 100 0 [] "a" [] "EvaluatorError" rfl,
   (library_failures_propagate_unchanged (D := Unit) (P := Nat) (E := Nat)
      (F := Nat) (V := Nat) (α := Int)).2.2.2.1
     _ _ _ [] "train.csv" "s3://b/k.csv" false "ClientError" (by decide) rfl,
   (library_failures_propagate_unchanged (D := Unit) (P := Nat) (E := Nat)
      (F := Nat) (V := Nat) (α := Int)).2.2.2.2.1
     _ _ _ [] "train.csv" "s3://b/k.csv" false "FileNotFoundError"
     (by decide) rfl rfl,
   (library_failures_propagate_unchanged (D := Unit) (P := Nat) (E := Nat)
      (F := Nat) (V := Nat) (α := Int)).2.2.2.2.2
     _ _ _ [] "train.csv" "s3://b/k.csv" "bytes" false "ClientError"
     (by decide) rfl rfl rfl⟩

end ErrorPropagation

/-- C2: on a non-empty test dataset, `plot_forecast` asks
`make_evaluation_predictions` for 100 sample paths and renders, for the
first series only, the last 336 observed values, the forecast of the first
entry, and the 50% and 90% prediction intervals (the forecast `.plot` call
draws the median and those two bands; the legend names them). -/
theorem plot_forecast_renders_first_series
    {P E F V : Type} (forecastOf : P → E → Nat → F) (toSeries : E → List V)
    (predictor : P) (test_data : List E) (h : test_data ≠ []) :
    plot_forecast (make_evaluation_predictions_model forecastOf toSeries)
        predictor test_data =
      Except.ok ⟨pyTail 336 (toSeries (test_data.head h)),
        forecastOf predictor (test_data.head h) 100, (50, 90),
        ["observations", "median prediction",
         "90.0% prediction interval", "50.0% prediction interval"]⟩ := by
  cases test_data with
  | nil => exact absurd rfl h
  | cons e es => rfl

/-- C2 (witness): the theorem applied at a concrete predictor, dataset
and `make_evaluation_predictions` model. -/
theorem plot_forecast_renders_first_series_witness :
    plot_forecast (make_evaluation_predictions_model
        (fun (p e n : Nat) => p + e + n) (fun e => [e, e])) 7 [1, 2] =
      Except.ok ⟨[1, 1], 108, (50, 90),
        ["observations", "median prediction",
         "90.0% prediction interval", "50.0% prediction interval"]⟩ := by
  have h := plot_forecast_renders_first_series
    (fun (p e n : Nat) => p + e + n) (fun e => [e, e]) 7 [1, 2] (by decide)
  simpa using h

/-- C8: `plot_forecast` indexes the first element of both iterators
unconditionally: on the empty dataset it raises `IndexError`, and on any
non-empty dataset that branch is unreachable — the call returns a
rendering. -/
theorem plot_forecast_requires_nonempty
    {P E F V : Type} (forecastOf : P → E → Nat → F) (toSeries : E → List V)
    (predictor : P) :
    plot_forecast (make_evaluation_predictions_model forecastOf toSeries)
        predictor ([] : List E) =
      Except.error "IndexError: list index out of range" ∧
    (∀ test_data : List E, test_data ≠ [] →
      ∃ spec, plot_forecast (make_evaluation_predictions_model forecastOf
        toSeries) predictor test_data = Except.ok spec) := by
  refine ⟨rfl, ?_⟩
  intro test_data h
  cases test_data with
  | nil => exact absurd rfl h
  | cons e es => exact ⟨_, rfl⟩

/-- C8 (witness): the theorem applied at a concrete instantiation, its
non-emptiness hypothesis discharged at the dataset `[5]`. -/
theorem plot_forecast_requires_nonempty_witness :
    plot_forecast (make_evaluation_predictions_model
        (fun (p e n : Nat) => p + e + n) (fun e => [e])) 0 ([] : List Nat) =
      Except.error "IndexError: list index out of range" ∧
    ∃ spec, plot_forecast (make_evaluation_predictions_model
        (fun (p e n : Nat) => p + e + n) (fun e => [e])) 0 [5] =
      Except.ok spec :=
  ⟨(plot_forecast_requires_nonempty (fun (p e n : Nat) => p + e + n)
      (fun e => [e]) 0).1,
   (plot_forecast_requires_nonempty (fun (p e n : Nat) => p + e + n)
      (fun e => [e]) 0).2 [5] (by decide)⟩

/-- C9: `copy_to_s3` demands an `s3://` path (raising `AssertionError`
otherwise), and with `override = false` it returns the store unchanged —
calling no `put_object` — whenever at least one object already exists in
the target bucket under the target key prefix. -/
theorem copy_to_s3_never_overwrites_without_override
    (st : S3State) (content s3_path : String) :
    (pyStartswith s3_path "s3://" = false →
      copy_to_s3 st content s3_path false = Except.error "AssertionError") ∧
    (pyStartswith s3_path "s3://" = true →
      objectsUnder st ((pySplit s3_path '/').getD 2 "")
          (pyJoin "/" ((pySplit s3_path '/').drop 3)) ≠ [] →
      copy_to_s3 st content s3_path false = Except.ok st) := by
  constructor
  · intro hs
    simp [copy_to_s3, hs]
  · intro hs hex
    have hlen : 0 < (objectsUnder st ((pySplit s3_path '/').getD 2 "")
        (pyJoin "/" ((pySplit s3_path '/').drop 3))).length :=
      List.length_pos.mpr hex
    simp [copy_to_s3, hs, hlen]
    intro hcon
    exact absurd hcon (by simpa using hex)

/-- C9 (witness): the theorem applied at a path missing the scheme and at
a store already holding an object under the target key. -/
theorem copy_to_s3_never_overwrites_without_override_witness :
    copy_to_s3 [] "data" "bucket/k" false = Except.error "AssertionError" ∧
    copy_to_s3 [("b", "k.csv", "old")] "data" "s3://b/k.csv" false =
      Except.ok [("b", "k.csv", "old")] :=
  ⟨(copy_to_s3_never_overwrites_without_override [] "data" "bucket/k").1
      (by decide),
   (copy_to_s3_never_overwrites_without_override [("b", "k.csv", "old")]
      "data" "s3://b/k.csv").2 (by decide) (by decide)⟩

/-- Head comparison characterisation of the lexicographic order. -/
lemma charListLe_cons_iff (a b : Char) (as bs : List Char) :
    charListLe (a :: as) (b :: bs) = true ↔
      a.toNat < b.toNat ∨ (a.toNat = b.toNat ∧ charListLe as bs = true) := by
  rw [charListLe]
  split_ifs with h1 h2
  · simp [h1]
  · simp
    omega
  · have heq : a.toNat = b.toNat := by omega
    simp [h1, h2, heq]

/-- Transitivity of the lexicographic order on character lists. -/
lemma charListLe_trans :
    ∀ (a b c : List Char), charListLe a b = true → charListLe b c = true →
      charListLe a c = true
  | [], _, _, _, _ => rfl
  | _ :: _, [], _, hab, _ => by simp [charListLe] at hab
  | _ :: _, _ :: _, [], _, hbc => by simp [charListLe] at hbc
  | a :: as, b :: bs, c :: cs, hab, hbc => by
    rcases (charListLe_cons_iff a b as bs).mp hab with h1 | ⟨h1, h1'⟩ <;>
      rcases (charListLe_cons_iff b c bs cs).mp hbc with h2 | ⟨h2, h2'⟩
    · exact (charListLe_cons_iff a c as cs).mpr (Or.inl (by omega))
    · exact (charListLe_cons_iff a c as cs).mpr (Or.inl (by omega))
    · exact (charListLe_cons_iff a c as cs).mpr (Or.inl (by omega))
    · exact (charListLe_cons_iff a c as cs).mpr
        (Or.inr ⟨by omega, charListLe_trans as bs cs h1' h2'⟩)

/-- `takeWhile` under a weaker predicate extends `takeWhile` under a
stronger one. -/
lemma takeWhile_weaker_append {β : Type} (p q : β → Bool)
    (h : ∀ a, p a = true → q a = true) :
    ∀ l : List β, ∃ t, l.takeWhile q = l.takeWhile p ++ t
  | [] => ⟨[], rfl⟩
  | a :: l => by
    by_cases hp : p a = true
    · obtain ⟨t, ht⟩ := takeWhile_weaker_append p q h l
      exact ⟨t, by simp [List.takeWhile_cons, hp, h a hp, ht]⟩
    · exact ⟨(a :: l).takeWhile q, by simp [List.takeWhile_cons, hp]⟩

/-- C5: each of the two datasets is a single record, both records carry the
first index label of the loaded table as their start, and the training
record's target (values up to 2015-04-05 00:00:00) is an initial segment of
the test record's target (values up to 2015-04-15 00:00:00). -/
theorem datasets_singleton_shared_start_train_initial_of_test
    {V : Type} (idx : List String) (value : List V) (h : idx ≠ []) :
    training_data idx value =
      [⟨idx.head h, labelSliceUpTo idx value "2015-04-05 00:00:00"⟩] ∧
    test_data idx value =
      [⟨idx.head h, labelSliceUpTo idx value "2015-04-15 00:00:00"⟩] ∧
    ∃ t, labelSliceUpTo idx value "2015-04-15 00:00:00" =
      labelSliceUpTo idx value "2015-04-05 00:00:00" ++ t := by
  obtain ⟨i0, idx', rfl⟩ := List.exists_cons_of_ne_nil h
  refine ⟨rfl, rfl, ?_⟩
  obtain ⟨t, ht⟩ := takeWhile_weaker_append
    (fun p : String × V => pyStrLe p.1 "2015-04-05 00:00:00")
    (fun p : String × V => pyStrLe p.1 "2015-04-15 00:00:00")
    (fun a ha => charListLe_trans a.1.data
      "2015-04-05 00:00:00".data "2015-04-15 00:00:00".data ha (by decide))
    ((i0 :: idx').zip value)
  exact ⟨t.map Prod.snd, by simp [labelSliceUpTo, ht]⟩

/-- C5 (witness): the theorem applied to a concrete three-row table. -/
theorem datasets_singleton_shared_start_train_initial_of_test_witness :
    training_data ["2015-02-26 21:42:53", "2015-04-04 23:57:53",
        "2015-04-10 00:02:53"] [(10 : Int), 20, 30] =
      [⟨"2015-02-26 21:42:53", [10, 20]⟩] ∧
    test_data ["2015-02-26 21:42:53", "2015-04-04 23:57:53",
        "2015-04-10 00:02:53"] [(10 : Int), 20, 30] =
      [⟨"2015-02-26 21:42:53", [10, 20, 30]⟩] ∧
    ([10, 20, 30] : List Int) = [10, 20] ++ [30] := by
  have h := datasets_singleton_shared_start_train_initial_of_test
    ["2015-02-26 21:42:53", "2015-04-04 23:57:53", "2015-04-10 00:02:53"]
    [(10 : Int), 20, 30] (by decide)
  exact ⟨h.1.trans (by decide), h.2.1.trans (by decide), by decide⟩

/-- C6: the modeling notebook runs its cells once each in a fixed linear
order: the CSV is fetched before the datasets are built; the datasets exist
before any estimator is trained; each predictor is created or trained
before it is plotted, evaluated or compared; evaluation results exist
before they are printed; and no cell occurs twice (no retries, no
reordering). -/
theorem notebook_cells_linear_order :
    notebookSteps.Nodup ∧
    notebookSteps.indexOf Step.fetchCSV <
      notebookSteps.indexOf Step.buildDatasets ∧
    notebookSteps.indexOf Step.buildDatasets <
      notebookSteps.indexOf Step.trainDeepAR ∧
    notebookSteps.indexOf Step.buildDatasets <
      notebookSteps.indexOf Step.createAndTrainMLP ∧
    notebookSteps.indexOf Step.createNaivePredictor <
      notebookSteps.indexOf Step.evalNaive ∧
    notebookSteps.indexOf Step.createNaivePredictor <
      notebookSteps.indexOf Step.plotNaive ∧
    notebookSteps.indexOf Step.trainDeepAR <
      notebookSteps.indexOf Step.plotDeepAR ∧
    notebookSteps.indexOf Step.trainDeepAR <
      notebookSteps.indexOf Step.evalDeepAR ∧
    notebookSteps.indexOf Step.trainDeepAR <
      notebookSteps.indexOf Step.runComparison ∧
    notebookSteps.indexOf Step.createAndTrainMLP <
      notebookSteps.indexOf Step.plotMLP ∧
    notebookSteps.indexOf Step.createAndTrainMLP <
      notebookSteps.indexOf Step.runComparison ∧
    notebookSteps.indexOf Step.evalNaive <
      notebookSteps.indexOf Step.printNaiveMetrics ∧
    notebookSteps.indexOf Step.evalDeepAR <
      notebookSteps.indexOf Step.printMSEComparison := by decide

/-- C7: both notebooks fetch the input data exactly once, from the same
fixed public HTTPS URL of `Twitter_volume_AMZN.csv`, reading it straight
into a table with row 0 as header and column 0 as index. -/
theorem single_fixed_csv_fetch :
    url_modeling = url_sagemaker ∧
    read_csv_modeling.filepath_or_buffer = url_modeling ∧
    read_csv_sagemaker.filepath_or_buffer = url_modeling ∧
    pyStartswith url_modeling "https://" = true ∧
    pyEndswith url_modeling "Twitter_volume_AMZN.csv" = true ∧
    read_csv_modeling.header = 0 ∧ read_csv_modeling.index_col = 0 ∧
    read_csv_sagemaker.header = 0 ∧ read_csv_sagemaker.index_col = 0 ∧
    notebookSteps.count Step.fetchCSV = 1 ∧
    sagemakerSteps.count SMStep.fetchCSVAndSplit = 1 := by
  refine ⟨rfl, rfl, rfl, by decide, by decide, rfl, rfl, rfl, rfl, ?_, ?_⟩
  · decide
  · decide
